import Mathlib

/-!
# Verification of the job orchestration and reconciliation core

Shallow embedding of the markdown-batch / extraction job pipeline of the
proposal.biz backend (FastAPI + Supabase), together with theorems settling the
specification claims about it.

Conventions used throughout:

* The Supabase tables touched by the orchestration core are modelled as lists
  of records inside one `DB` value; a Supabase `update ... eq(...)` is a `map`
  over the matching rows and an `insert` is an append.
* Organization ids flowing through the markdown pipeline are modelled as
  integers.  `_convert_org_id` (database.py:96) is the identity on integers, so
  the conversion applied inside `get_processing_job` / `update_processing_job`
  is elided in that pipeline.  The general conversion (integers, digit strings,
  hashed identifiers) is modelled separately as `convert_org_id` for the claims
  about it, with the Python `hash` function abstracted as a parameter.
* `updated_at` / `created_at` timestamp columns are elided.
* Python keyword-argument binding is modelled explicitly (`bindsOk`): several
  call sites in app/utils/markdown_extraction.py pass keyword arguments that
  the callee signature does not declare, which in Python raises `TypeError`
  before the callee body runs.  Such calls are modelled by checking `bindsOk`
  for the literal signature and call shape and returning `PyCall.typeError`
  with the state unchanged when the binding fails.
-/

namespace PBiz

/-- Python truthiness of an optional string: `None` and `""` are falsy. -/
def struthy : Option String → Bool
  | none => false
  | some s => !s.isEmpty

/-- Python truthiness of an optional integer: `None` and `0` are falsy. -/
def otruthy : Option Int → Bool
  | none => false
  | some n => n != 0

/-- Error raised by a FastAPI endpoint (`HTTPException(status_code, detail)`). -/
structure HErr where
  code : Nat
  detail : String
deriving DecidableEq, Repr

/-! ## Python call binding

A Python signature is a parameter-name list together with the number of
leading parameters that have no default.  A call with `npos` positional
arguments and keyword arguments `kwnames` binds successfully iff the
positionals fit, every keyword names a parameter that was not already bound
positionally, and every required parameter is bound.  When binding fails the
interpreter raises `TypeError` without running the callee body. -/

structure PySig where
  params : List String
  numRequired : Nat
deriving DecidableEq, Repr

def bindsOk (sig : PySig) (npos : Nat) (kwnames : List String) : Bool :=
  decide (npos ≤ sig.params.length)
    && kwnames.all (fun k => (sig.params.drop npos).contains k)
    && (sig.params.take sig.numRequired).all
        (fun p => (sig.params.take npos).contains p || kwnames.contains p)

/-- Signature of `update_markdown_extraction_status(job_id, status, org_id=None)`
(database.py:731). -/
def sig_update_markdown_extraction_status : PySig :=
  ⟨["job_id", "status", "org_id"], 2⟩

/-- Signature of `update_url_markdown_content(job_id, url, markdown_text,
status="completed", metadata=None, links=None, html=None, screenshot=None,
org_id=None)` (database.py:768). -/
def sig_update_url_markdown_content : PySig :=
  ⟨["job_id", "url", "markdown_text", "status", "metadata", "links", "html",
    "screenshot", "org_id"], 3⟩

/-- Signature of `create_markdown_extraction_job(job_id, urls, org_id,
user_id=None)` (database.py:641). -/
def sig_create_markdown_extraction_job : PySig :=
  ⟨["job_id", "urls", "org_id", "user_id"], 3⟩

/-- Keyword names used by the `update_url_markdown_content(...)` call sites at
markdown_extraction.py:247, 265 and 283: all arguments are passed by keyword
and the first one is spelled `hyperbrowser_job_id`, a name the callee does not
declare. -/
def badUrlContentKwargs : List String :=
  ["hyperbrowser_job_id", "url", "markdown_text", "status", "metadata", "links",
   "html", "screenshot", "org_id"]

/-- Result of a Python call whose binding may fail: either the callee ran, or a
`TypeError` was raised leaving the carried state untouched. -/
inductive PyCall (α : Type) where
  | ok (a : α)
  | typeError (a : α)
deriving DecidableEq, Repr

/-! ## Data model -/

/-- The `metadata` JSON column of a `processing_jobs` row, restricted to the
keys the markdown pipeline reads or writes.  `create_markdown_extraction_job`
stores `urls` and `total_urls` (database.py:662); `start_batch_scrape` intends
to add `hyperbrowser_batch_id` (markdown_extraction.py:77); nothing ever
writes `hyperbrowser_job_id`, although the results/status endpoints read it. -/
structure Metadata where
  urls : List String := []
  total_urls : Option Nat := none
  hyperbrowser_batch_id : Option String := none
  hyperbrowser_job_id : Option String := none
deriving DecidableEq, Repr

/-- A row of the unified `processing_jobs` table (database.py:122-159). -/
structure ProcessingJob where
  job_id : String
  job_type : String
  org_id : Int
  status : String
  total_items : Nat
  completed_items : Nat
  error_message : Option String := none
  created_by : Option Int := none
  source_url : Option String := none
  metadata : Metadata := {}
deriving DecidableEq, Repr

/-- The `metadata` payload stored on a `markdown_content` row: either page
metadata from a successful scrape or a `{"error": msg}` dictionary. -/
inductive RowMeta where
  | pageMeta (payload : String)
  | errorMeta (msg : String)
deriving DecidableEq, Repr

/-- A row of the `markdown_content` table: one per (job, url) work item. -/
structure MarkdownContentRow where
  job_id : String
  url : String
  status : String
  markdown_text : Option String := none
  row_metadata : Option RowMeta := none
  html : Option String := none
  screenshot : Option String := none
  org_id : Option Int := none
deriving DecidableEq, Repr

/-- A row of the `extracted_links` table. -/
structure LinkRow where
  job_id : String
  url : String
  link : String
  org_id : Option Int := none
deriving DecidableEq, Repr

/-- A row of the legacy `markdownextractionjobs` table (database.py:39).  Jobs
are created only in `processing_jobs`, so in every state reachable through the
modelled operations this table is empty; `update_url_markdown_content`
nevertheless targets it with its counter write (database.py:839). -/
structure LegacyMarkdownJobRow where
  job_id : String
  status : String
  completed_urls : Nat
  total_urls : Nat
  org_id : Option Int := none
deriving DecidableEq, Repr

/-- An entry of the in-process `local_job_cache` dictionary (database.py:13),
used as fallback by `get_extraction_job`. -/
structure CacheJob where
  job_id : String
  url : String
  status : String
  org_id : Int
  created_by : Option Int := none
deriving DecidableEq, Repr

/-- The persistent state touched by the orchestration core. -/
structure DB where
  processing_jobs : List ProcessingJob := []
  markdown_content : List MarkdownContentRow := []
  extracted_links : List LinkRow := []
  markdown_jobs : List LegacyMarkdownJobRow := []
  local_job_cache : List CacheJob := []
deriving DecidableEq, Repr

/-! ## Job store (database.py) -/

/-- `get_processing_job(job_id, org_id)` (database.py:184-205): select rows by
`job_id`, additionally filtered by owner when `org_id` is truthy, returning the
first match. -/
def get_processing_job (db : DB) (job_id : String) (org_id : Option Int) :
    Option ProcessingJob :=
  (db.processing_jobs.filter fun j =>
      j.job_id == job_id
        && (if otruthy org_id then some j.org_id == org_id else true)).head?

/-- `update_processing_job(job_id, status, completed_items, error_message,
metadata, org_id)` (database.py:217-268): patch every matching row with the
provided fields and return the first patched row. -/
def update_processing_job (db : DB) (job_id : String) (status : Option String)
    (completed_items : Option Nat) (error_message : Option String)
    (metadata : Option Metadata) (org_id : Option Int) :
    DB × Option ProcessingJob :=
  let patch : ProcessingJob → ProcessingJob := fun j =>
    { j with
      status := status.getD j.status
      completed_items := completed_items.getD j.completed_items
      error_message := match error_message with
        | some e => some e
        | none => j.error_message
      metadata := metadata.getD j.metadata }
  let hit : ProcessingJob → Bool := fun j =>
    j.job_id == job_id && (if otruthy org_id then some j.org_id == org_id else true)
  ({ db with processing_jobs := db.processing_jobs.map fun j => if hit j then patch j else j },
   ((db.processing_jobs.filter hit).map patch).head?)

/-- `create_processing_job(...)` (database.py:122-182): insert a job row with
`status="pending"` and `completed_items=0`. -/
def create_processing_job (db : DB) (job_id job_type : String) (org_id : Int)
    (user_id : Option Int) (source_url : Option String) (total_items : Nat)
    (metadata : Metadata) : DB × ProcessingJob :=
  let rec0 : ProcessingJob :=
    { job_id := job_id, job_type := job_type, org_id := org_id
      status := "pending", total_items := total_items, completed_items := 0
      error_message := none, created_by := user_id, source_url := source_url
      metadata := metadata }
  ({ db with processing_jobs := db.processing_jobs ++ [rec0] }, rec0)

/-- The legacy-format dictionary built by `get_markdown_extraction_job`
(database.py:716-725).  Note that this dictionary carries no `metadata` and no
`error_message` key. -/
structure LegacyMdJobDict where
  job_id : String
  status : String
  total_urls : Nat
  completed_urls : Nat
  org_id : Int
deriving DecidableEq, Repr

def toLegacyMdJobDict (j : ProcessingJob) : LegacyMdJobDict :=
  { job_id := j.job_id, status := j.status
    total_urls := j.metadata.total_urls.getD j.total_items
    completed_urls := j.completed_items, org_id := j.org_id }

/-- `get_markdown_extraction_job(job_id, org_id)` (database.py:698-729): look
the job up in `processing_jobs`, require `job_type == "markdown_extraction"`,
and project to the legacy dictionary. -/
def get_markdown_extraction_job (db : DB) (job_id : String) (org_id : Option Int) :
    Option LegacyMdJobDict :=
  match get_processing_job db job_id org_id with
  | some j =>
      if j.job_type == "markdown_extraction" then some (toLegacyMdJobDict j) else none
  | none => none

/-- `update_markdown_extraction_status(job_id, status, org_id)`
(database.py:731-766): patch only the status of the unified job and return the
legacy projection of the patched row.  This is the callee body that runs when
the call binds; most call sites do not bind (see `callUpdateStatusWithErrorKw`). -/
def update_markdown_extraction_status (db : DB) (job_id status : String)
    (org_id : Option Int) : DB × Option LegacyMdJobDict :=
  let (db1, jr) := update_processing_job db job_id (some status) none none none org_id
  (db1, jr.map toLegacyMdJobDict)

/-- `create_markdown_extraction_job(job_id, urls, org_id, user_id)`
(database.py:641-696): create the unified job (metadata `urls`/`total_urls`)
and bulk-insert one pending `markdown_content` row per url, with the converted
owner id. -/
def create_markdown_extraction_job (db : DB) (job_id : String) (urls : List String)
    (org_id : Int) (user_id : Option Int) : DB × ProcessingJob :=
  let (db1, rec0) := create_processing_job db job_id "markdown_extraction" org_id
    user_id none urls.length
    { urls := urls, total_urls := some urls.length }
  let rows := urls.map fun u =>
    ({ job_id := job_id, url := u, status := "pending", org_id := some org_id }
      : MarkdownContentRow)
  ({ db1 with markdown_content := db1.markdown_content ++ rows }, rec0)

/-! ## The work item write: `update_url_markdown_content` (database.py:768-850) -/

/-- The row patch applied by `update_url_markdown_content` (database.py:788-800):
`markdown_text` and `status` always, `html`/`screenshot` only when truthy,
`metadata` only when provided.  There is no condition on the current status of
the row: the patch applies to pending and terminal rows alike. -/
def applyUrlUpdate (markdown_text status : String) (metadata : Option RowMeta)
    (html screenshot : Option String) (r : MarkdownContentRow) : MarkdownContentRow :=
  { r with
    markdown_text := some markdown_text
    status := status
    html := if struthy html then html else r.html
    screenshot := if struthy screenshot then screenshot else r.screenshot
    row_metadata := match metadata with
      | some m => some m
      | none => r.row_metadata }

/-- Row selector of the content update: `eq("job_id", ...).eq("url", ...)` plus
the owner filter when `org_id` is truthy (database.py:804-808). -/
def contentRowMatches (job_id url : String) (org_id : Option Int)
    (r : MarkdownContentRow) : Bool :=
  r.job_id == job_id && r.url == url
    && (if otruthy org_id then r.org_id == org_id else true)

/-- One step of the content-table update. -/
def contentUpdateStep (job_id url markdown_text status : String)
    (metadata : Option RowMeta) (html screenshot : Option String)
    (org_id : Option Int) (r : MarkdownContentRow) : MarkdownContentRow :=
  if contentRowMatches job_id url org_id r then
    applyUrlUpdate markdown_text status metadata html screenshot r
  else r

/-- The `extracted_links` rows inserted by database.py:814-824.  They are
inserted on every call (there is no existence check), with the owner falling
back to the first updated row when `org_id` is falsy. -/
def linkRecords (job_id url : String) (links : Option (List String))
    (org_id : Option Int) (updatedRows : List MarkdownContentRow) : List LinkRow :=
  match links with
  | some ls =>
      if ls.isEmpty then []
      else
        let lo : Option Int :=
          if otruthy org_id then org_id else updatedRows.head?.bind (·.org_id)
        (ls.filter fun l => l != "").map fun l =>
          { job_id := job_id, url := url, link := l, org_id := lo }
  | none => []

/-- `update_url_markdown_content(job_id, url, markdown_text, status, metadata,
links, html, screenshot, org_id)` (database.py:768-850).  Three state writes:

1. patch the matching `markdown_content` rows unconditionally;
2. insert the link rows (again on every call);
3. read the unified job, compute `completed_count = completed_urls + 1`, and
   write the incremented counter (plus `status="completed"` once the counter
   reaches the total) to the LEGACY `markdownextractionjobs` table
   (database.py:839) — `processing_jobs` is never written by this function.

The job read in step 3 happens after steps 1-2 in the source, but those steps
do not touch `processing_jobs`, so reading from the initial state is
equivalent. -/
def update_url_markdown_content (db : DB) (job_id url markdown_text status : String)
    (metadata : Option RowMeta) (links : Option (List String))
    (html screenshot : Option String) (org_id : Option Int) :
    DB × Option MarkdownContentRow :=
  let step := contentUpdateStep job_id url markdown_text status metadata html
    screenshot org_id
  let updatedRows :=
    (db.markdown_content.filter (contentRowMatches job_id url org_id)).map
      (applyUrlUpdate markdown_text status metadata html screenshot)
  let newContent := db.markdown_content.map step
  let newLinks := db.extracted_links ++ linkRecords job_id url links org_id updatedRows
  let newLegacy :=
    match get_markdown_extraction_job db job_id org_id with
    | some job =>
        let completed_count := job.completed_urls + 1
        db.markdown_jobs.map fun r =>
          if r.job_id == job_id
              && (if otruthy org_id then r.org_id == org_id else true) then
            { r with
              completed_urls := completed_count
              status := if job.total_urls ≤ completed_count then "completed" else r.status }
          else r
    | none => db.markdown_jobs
  ({ db with markdown_content := newContent, extracted_links := newLinks,
             markdown_jobs := newLegacy },
   updatedRows.head?)

/-! ## Reconciler layer: app/utils/markdown_extraction.py

`update_markdown_extraction_status` takes `(job_id, status, org_id)`, yet every
failure-recording call site in this module passes an additional
`error_message=` keyword (markdown_extraction.py:93, 132, 166, 181, 190, 212,
300, 308).  Such a call raises `TypeError` before the callee body runs. -/

/-- A call `update_markdown_extraction_status(job_id, status, org_id,
error_message=...)`: three positional arguments plus the `error_message`
keyword, bound against the signature at database.py:731.  If the binding
succeeded the callee body would run; since it does not, the call raises
`TypeError` and leaves the database untouched. -/
def callUpdateStatusWithErrorKw (db : DB) (job_id status : String)
    (org_id : Option Int) : PyCall DB :=
  if bindsOk sig_update_markdown_extraction_status 3 ["error_message"] then
    .ok (update_markdown_extraction_status db job_id status org_id).1
  else .typeError db

/-- A call `update_url_markdown_content(hyperbrowser_job_id=..., url=..., ...)`
as written at markdown_extraction.py:247, 265 and 283: every argument is passed
by keyword and the first keyword is `hyperbrowser_job_id`, which the callee
signature (database.py:768) does not declare, so the call raises `TypeError`
and leaves the database untouched. -/
def callUpdateUrlContentBadKw (db : DB) (job_id url markdown_text status : String)
    (metadata : Option RowMeta) (links : Option (List String))
    (html screenshot : Option String) (org_id : Option Int) :
    PyCall (DB × Option MarkdownContentRow) :=
  if bindsOk sig_update_url_markdown_content 0 badUrlContentKwargs then
    .ok (update_url_markdown_content db job_id url markdown_text status metadata
      links html screenshot org_id)
  else .typeError (db, none)

/-- Outcome of the provider submission attempted by `start_batch_scrape`. -/
inductive SubmitOutcome where
  | ok (batch_id : String)
  | exn (msg : String)
deriving DecidableEq, Repr

/-- `start_batch_scrape(hyperbrowser_job_id, urls, org_id)`
(markdown_extraction.py:17-97).  Line 34 is a well-formed three-positional
call that persists `status="processing"`.  After that, neither path can store
the provider handle:

* on submission failure the handler at lines 88-97 attempts
  `update_markdown_extraction_status(..., error_message=...)`, which raises
  `TypeError`; the inner `try` at lines 92-95 swallows it and the function
  returns `None`;
* on submission success, line 78 evaluates `update_processing_job_status`,
  a name imported at line 13 but defined nowhere in app.core.database, so the
  lookup raises and control reaches the same handler at line 88.

Either way the returned handle is `None` and the only persisted change is the
line-34 status write. -/
def start_batch_scrape (db : DB) (job_id : String) (org_id : Int)
    (submit : SubmitOutcome) : DB × Option String :=
  let db1 := (update_markdown_extraction_status db job_id "processing" (some org_id)).1
  match submit with
  | .ok _ =>
      match callUpdateStatusWithErrorKw db1 job_id "failed" (some org_id) with
      | .ok d => (d, none)
      | .typeError d => (d, none)
  | .exn _ =>
      match callUpdateStatusWithErrorKw db1 job_id "failed" (some org_id) with
      | .ok d => (d, none)
      | .typeError d => (d, none)

/-- One per-url result object of a Hyperbrowser batch
(`client.scrape.batch.get(...).data[i]`), with the attribute defaults used by
`process_batch_results` (markdown_extraction.py:225-237). -/
structure BatchItem where
  url : String := "unknown"
  status : String := "failed"
  error : Option String := none
  markdown : String := ""
  page_metadata : Option RowMeta := none
  links : List String := []
  html : String := ""
  screenshot : String := ""
deriving DecidableEq, Repr

/-- Outcome of `client.scrape.batch.get_status(batch_id)`. -/
inductive PollOutcome where
  | ok (status : String)
  | exn (msg : String)
deriving DecidableEq, Repr

/-- Outcome of `client.scrape.batch.get(batch_id)`. -/
inductive FetchOutcome where
  | ok (data : List BatchItem)
  | exn (msg : String)
deriving DecidableEq, Repr

/-- Behaviour of the provider during one reconciliation attempt. -/
structure Provider where
  poll : PollOutcome
  fetch : FetchOutcome
deriving DecidableEq, Repr

/-- The final-status rule at markdown_extraction.py:298:
`"completed" if successful_results > 0 else "failed"`. -/
def final_status_calc (successful_results : Nat) : String :=
  if 0 < successful_results then "completed" else "failed"

/-- Processing of one per-url result (markdown_extraction.py:222-295).  The
success branch (line 231: `status == "completed" and not error`) normalises
empty markdown to `"No content extracted"` and calls
`update_url_markdown_content` with the `hyperbrowser_job_id=` keyword; the
failure branch does the same with an error payload.  In both branches the call
raises `TypeError`, the handler at line 277 attempts the same miskeyed call as
a fallback (line 283), which is swallowed at line 294.  `successful_results`
is incremented (line 258) only after a successful save, so it never is. -/
def process_item (db : DB) (job_id : String) (org_id : Int) (it : BatchItem) :
    DB × Bool :=
  if it.status == "completed" && it.error == none then
    let md := if it.markdown.trim == "" then "No content extracted" else it.markdown
    match callUpdateUrlContentBadKw db job_id it.url md "completed" it.page_metadata
        (some it.links) (some it.html) (some it.screenshot) (some org_id) with
    | .ok (d, _) => (d, true)
    | .typeError (d, _) =>
        match callUpdateUrlContentBadKw d job_id it.url "" "failed"
            (some (.errorMeta "error processing individual result")) (some [])
            (some "") (some "") (some org_id) with
        | .ok (d2, _) => (d2, false)
        | .typeError (d2, _) => (d2, false)
  else
    let emsg := it.error.getD ("Unknown error during scraping, status " ++ it.status)
    match callUpdateUrlContentBadKw db job_id it.url "" "failed"
        (some (.errorMeta emsg)) (some []) (some "") (some "") (some org_id) with
    | .ok (d, _) => (d, false)
    | .typeError (d, _) =>
        match callUpdateUrlContentBadKw d job_id it.url "" "failed"
            (some (.errorMeta emsg)) (some []) (some "") (some "") (some org_id) with
        | .ok (d2, _) => (d2, false)
        | .typeError (d2, _) => (d2, false)

/-- Fold step of the result loop: thread the database and count successes. -/
def process_step (job_id : String) (org_id : Int) (acc : DB × Nat)
    (it : BatchItem) : DB × Nat :=
  let (d, okFlag) := process_item acc.1 job_id org_id it
  (d, acc.2 + (if okFlag then 1 else 0))

/-- Observable outcome of `process_batch_results`: the final database, the
success counter, the computed job-level final status (line 298), and whether
the function terminated by raising. -/
structure BatchOutcome where
  db : DB
  successful_results : Nat
  final_status : String
  raised : Bool
deriving DecidableEq, Repr

/-- `process_batch_results(hyperbrowser_job_id, batch_result, org_id)`
(markdown_extraction.py:196-308).

* Empty data (line 209): the failure write at line 212 raises `TypeError`
  (`error_message=` keyword); the handler at line 305 retries the same call at
  line 308, which raises again, propagating to the caller.
* Non-empty data: the per-item loop (see `process_item`), then the final
  status computed by `final_status_calc` is written at line 300 with the same
  miskeyed call; the handler at 305/308 re-raises as above.

In all cases the function raises `TypeError` and persists nothing. -/
def process_batch_results (db : DB) (job_id : String) (org_id : Int)
    (data : List BatchItem) : BatchOutcome :=
  if data.isEmpty then
    match callUpdateStatusWithErrorKw db job_id "failed" (some org_id) with
    | .ok d => ⟨d, 0, "failed", false⟩
    | .typeError d =>
        match callUpdateStatusWithErrorKw d job_id "failed" (some org_id) with
        | .ok d2 => ⟨d2, 0, "failed", false⟩
        | .typeError d2 => ⟨d2, 0, "failed", true⟩
  else
    let (d, successful) := data.foldl (process_step job_id org_id) (db, 0)
    let fs := final_status_calc successful
    match callUpdateStatusWithErrorKw d job_id fs (some org_id) with
    | .ok d2 => ⟨d2, successful, fs, false⟩
    | .typeError d2 =>
        match callUpdateStatusWithErrorKw d2 job_id "failed" (some org_id) with
        | .ok d3 => ⟨d3, successful, fs, false⟩
        | .typeError d3 => ⟨d3, successful, fs, true⟩

/-- The dictionary returned by `check_and_process_batch_job`. -/
structure CheckResult where
  status : String
  error : Option String
deriving DecidableEq, Repr

/-- Control outcome of the status-check block (markdown_extraction.py:139-182):
either a returned dictionary or an exception propagating out of the block. -/
inductive InnerOut where
  | ret (r : CheckResult)
  | raised (msg : String)
deriving DecidableEq, Repr

/-- The `TypeError` message produced when `error_message=` fails to bind. -/
def tyErrMsgStatusKw : String :=
  "update_markdown_extraction_status() got an unexpected keyword argument error_message"

/-- The status-check block of `check_and_process_batch_job`
(markdown_extraction.py:139-182), reached when a Hyperbrowser batch id is in
hand.  Branches:

* poll `"completed"`: fetch results (a fetch error is caught at line 178) and
  run `process_batch_results`, which raises `TypeError`; the handler at
  line 178 then attempts the miskeyed write at line 181, which raises again,
  escaping the block.  Were the fan-out to succeed, line 150 would return
  `{"status": "completed"}`.
* poll `"failed"`: the failure-detail fetch (lines 156-163) swallows its own
  errors; the write at line 166 raises `TypeError`, caught at 178, re-raised
  at 181.
* poll `"pending"` or `"running"`: return `{"status": "processing"}` without
  touching any store (line 172).
* any other poll value: return `{"status": "unknown"}` (line 176).
* poll raising (network timeout): caught at line 178; the write at line 181
  raises `TypeError`, escaping the block. -/
def check_inner (db : DB) (job_id : String) (org_id : Int) (p : Provider) :
    DB × InnerOut :=
  match p.poll with
  | .exn _ =>
      match callUpdateStatusWithErrorKw db job_id "failed" (some org_id) with
      | .ok d => (d, .ret ⟨"error", some "Error checking Hyperbrowser status"⟩)
      | .typeError d => (d, .raised tyErrMsgStatusKw)
  | .ok st =>
      if st == "completed" then
        match p.fetch with
        | .exn _ =>
            match callUpdateStatusWithErrorKw db job_id "failed" (some org_id) with
            | .ok d => (d, .ret ⟨"error", some "Error checking Hyperbrowser status"⟩)
            | .typeError d => (d, .raised tyErrMsgStatusKw)
        | .ok data =>
            let r := process_batch_results db job_id org_id data
            if r.raised then
              match callUpdateStatusWithErrorKw r.db job_id "failed" (some org_id) with
              | .ok d => (d, .ret ⟨"error", some "Error checking Hyperbrowser status"⟩)
              | .typeError d => (d, .raised tyErrMsgStatusKw)
            else (r.db, .ret ⟨"completed", none⟩)
      else if st == "failed" then
        match callUpdateStatusWithErrorKw db job_id "failed" (some org_id) with
        | .ok d => (d, .ret ⟨"failed", some "Hyperbrowser job failed"⟩)
        | .typeError d => (d, .raised tyErrMsgStatusKw)
      else if st == "pending" || st == "running" then
        (db, .ret ⟨"processing", none⟩)
      else
        (db, .ret ⟨"unknown", none⟩)

/-- One reconciliation attempt from the point where a Hyperbrowser batch id is
available: the status-check block composed with the outer handler of
`check_and_process_batch_job` (markdown_extraction.py:184-193), which catches
anything escaping the block, attempts one more miskeyed status write inside
its own `try` (lines 189-192, swallowed), and returns `{"status": "error"}`. -/
def check_attempt_with_batch_id (db : DB) (job_id : String) (org_id : Int)
    (p : Provider) : DB × CheckResult :=
  match check_inner db job_id org_id p with
  | (d, .ret r) => (d, r)
  | (d, .raised m) =>
      match callUpdateStatusWithErrorKw d job_id "failed" (some org_id) with
      | .ok d2 => (d2, ⟨"error", some ("Error in check_and_process_batch_job: " ++ m)⟩)
      | .typeError d2 => (d2, ⟨"error", some ("Error in check_and_process_batch_job: " ++ m)⟩)

/-- Observable outcome of a full `check_and_process_batch_job` call. -/
structure CheckOutcome where
  db : DB
  status : String
  error : Option String
  polled : Bool
  write_attempts : Nat
deriving DecidableEq, Repr

/-- `check_and_process_batch_job(hyperbrowser_job_id, org_id)`
(markdown_extraction.py:100-193), full fidelity:

1. load the job through `get_markdown_extraction_job` (line 116); missing job
   returns `{"status": "not_found"}` (line 119);
2. line 123: if the stored status is `"completed"` or `"failed"` — and only
   those two — return it immediately; line 125 reads
   `job.get("error_message")`, a key the legacy dictionary (database.py:716)
   does not carry, so the returned error is always `None`;
3. line 128 reads `job.get("metadata", {}).get("hyperbrowser_batch_id")`.
   The legacy dictionary carries no `metadata` key at all, so the batch id is
   always `None` and the missing-batch-id branch is taken: the write at
   line 132 raises `TypeError` (`error_message=` keyword), the outer handler
   at line 184 attempts one more such write (line 190, swallowed) and returns
   `{"status": "error"}`.

Consequently the provider (parameter `_p`) is never consulted:
`polled = false` in every outcome, and no store is ever mutated by this
function.  `write_attempts` counts the attempted job-status writes. -/
def check_and_process_batch_job (db : DB) (job_id : String) (org_id : Int)
    (_p : Provider) : CheckOutcome :=
  match get_markdown_extraction_job db job_id (some org_id) with
  | none => ⟨db, "not_found", some "Job not found", false, 0⟩
  | some job =>
      if job.status == "completed" || job.status == "failed" then
        ⟨db, job.status, none, false, 0⟩
      else
        match callUpdateStatusWithErrorKw db job_id "failed" (some org_id) with
        | .ok d => ⟨d, "error", some "Missing Hyperbrowser batch ID", false, 1⟩
        | .typeError d =>
            match callUpdateStatusWithErrorKw d job_id "failed" (some org_id) with
            | .ok d2 =>
                ⟨d2, "error",
                 some ("Error in check_and_process_batch_job: " ++ tyErrMsgStatusKw),
                 false, 2⟩
            | .typeError d2 =>
                ⟨d2, "error",
                 some ("Error in check_and_process_batch_job: " ++ tyErrMsgStatusKw),
                 false, 2⟩

/-! ## HTTP endpoint layer

The markdown endpoints (app/api/v1/endpoints/markdown_scrapping_from_url.py)
derive the caller's organization list from `get_user_organizations(user_id)`.
That helper returns a list of organization ids (database.py:70); the
comprehension `[org["org_id"] for org in user_orgs]` at lines 140 and 223
subscripts those ids and raises `TypeError` whenever the list is non-empty;
the surrounding handler converts this into HTTP 500.  The endpoint models
below take the caller's organization-id list as a parameter, modelling the
list those lines intend to build; the per-organization job lookup and
everything after it follow the source. -/

/-- The owner-scoped job search of the markdown status/results endpoints
(markdown_scrapping_from_url.py:142-149 and 225-232): try
`get_processing_job(job_id, org)` for each of the caller's organizations and
keep the first hit together with the organization that matched. -/
def markdown_job_lookup (db : DB) (user_org_ids : List Int) (job_id : String) :
    Option (ProcessingJob × Int) :=
  match user_org_ids with
  | [] => none
  | o :: rest =>
      match get_processing_job db job_id (some o) with
      | some j => some (j, o)
      | none => markdown_job_lookup db rest job_id

/-- A content row paired with its grouped links, as assembled by
`get_markdown_content` (database.py:889-903). -/
structure ContentWithLinks where
  row : MarkdownContentRow
  links : List String
deriving DecidableEq, Repr

/-- `get_markdown_content(job_id, org_id)` (database.py:852-911): load the job,
collect the job's content rows and link rows (both owner-filtered when the
owner is truthy) and attach the links grouped by url. -/
def get_markdown_content (db : DB) (job_id : String) (org_id : Option Int) :
    Option (LegacyMdJobDict × List ContentWithLinks) :=
  match get_markdown_extraction_job db job_id org_id with
  | none => none
  | some job =>
      let contentRows := db.markdown_content.filter fun r =>
        r.job_id == job_id && (if otruthy org_id then r.org_id == org_id else true)
      let linkRows := db.extracted_links.filter fun l =>
        l.job_id == job_id && (if otruthy org_id then l.org_id == org_id else true)
      some (job, contentRows.map fun r =>
        ⟨r, (linkRows.filter fun l => l.url == r.url).map (·.link)⟩)

/-- Body of `MarkdownResultResponse` restricted to the fields the claims are
about; each result is `(url, status, markdown_text, links)`. -/
structure MdResultsResponse where
  status : String
  total_urls : Nat
  completed_urls : Nat
  results : List (String × String × Option String × List String)
  error : Option String
deriving DecidableEq, Repr

/-- `GET /getmd/{job_id}` (markdown_scrapping_from_url.py:197-312), given the
caller's organization list:

1. empty organization list: HTTP 400 (line 221);
2. owner-scoped lookup (lines 228-236); no hit: HTTP 404;
3. line 239 reads `job.metadata["hyperbrowser_job_id"]` — a key no code path
   ever writes (`start_batch_scrape` would store `hyperbrowser_batch_id`, and
   that write itself never lands); missing: HTTP 500 (line 242);
4. otherwise reconcile via `check_and_process_batch_job`; `"error"` becomes
   HTTP 500 (line 251); `"processing"` returns the counts from the refreshed
   job with an empty result list (lines 253-264); any other status assembles
   the results from `get_markdown_content` (lines 267-305). -/
def get_markdown_results_endpoint (db : DB) (user_org_ids : List Int)
    (job_id : String) (p : Provider) : DB × Except HErr MdResultsResponse :=
  if user_org_ids.isEmpty then
    (db, .error ⟨400, "User is not a member of any organization"⟩)
  else
    match markdown_job_lookup db user_org_ids job_id with
    | none => (db, .error ⟨404, "Job not found"⟩)
    | some (job, org) =>
        match job.metadata.hyperbrowser_job_id with
        | none => (db, .error ⟨500, "Job missing hyperbrowser job ID"⟩)
        | some hb =>
            let c := check_and_process_batch_job db hb org p
            if c.status == "error" then
              (c.db, .error ⟨500, "Error processing job"⟩)
            else if c.status == "processing" then
              match get_processing_job c.db job_id (some org) with
              | some j2 =>
                  (c.db, .ok ⟨"processing", j2.total_items, j2.completed_items, [], none⟩)
              | none => (c.db, .error ⟨500, "Error retrieving results"⟩)
            else
              match get_markdown_content c.db hb (some org) with
              | none => (c.db, .error ⟨404, "Results not found"⟩)
              | some (_, contents) =>
                  match get_processing_job c.db job_id (some org) with
                  | none => (c.db, .error ⟨500, "Error retrieving results"⟩)
                  | some j2 =>
                      (c.db, .ok ⟨j2.status, j2.total_items, j2.completed_items,
                        contents.map fun cw =>
                          (cw.row.url, cw.row.status, cw.row.markdown_text, cw.links),
                        if j2.status == "failed" then j2.error_message else none⟩)

/-- Response of `POST /getmd`. -/
structure MdCreateResponse where
  job_id : String
  org_id : Int
  status : String
  total_urls : Nat
deriving DecidableEq, Repr

/-- `POST /getmd` (markdown_scrapping_from_url.py:26-111):

1. line 52: empty url list rejected with HTTP 400 before anything else;
2. line 55: more than 1000 urls rejected with HTTP 400;
3. organization resolution (lines 60-74): with no organizations the caller
   gets 400 (no org requested) or 403 (requested org not in the empty list);
   with a non-empty organization list the comprehension over
   `get_user_organizations` raises `TypeError` (it subscripts ids), which the
   handler at line 109 converts to HTTP 500.  Even were that repaired, the
   job-creation call at line 80 passes `hyperbrowser_job_id=` to
   `create_markdown_extraction_job(job_id, ...)` (database.py:641) and cannot
   bind (see `sig_create_markdown_extraction_job`), so no path of this
   endpoint ever creates a job or work-item record. -/
def extract_markdown_response (urls : List String) (org_req : Option Int)
    (user_org_ids : List Int) : Except HErr MdCreateResponse :=
  if urls.isEmpty then .error ⟨400, "No URLs provided"⟩
  else if 1000 < urls.length then
    .error ⟨400, "Maximum 1000 URLs allowed per batch"⟩
  else
    match org_req with
    | none =>
        if user_org_ids.isEmpty then
          .error ⟨400, "User is not a member of any organization"⟩
        else .error ⟨500, "Error starting extraction"⟩
    | some _ =>
        if user_org_ids.isEmpty then
          .error ⟨403, "User does not have access to this organization"⟩
        else .error ⟨500, "Error starting extraction"⟩

/-- The endpoint proper: since no path reaches a successful store write, the
database component is returned unchanged alongside the branch response. -/
def extract_markdown_endpoint (db : DB) (urls : List String)
    (org_req : Option Int) (user_org_ids : List Int) :
    DB × Except HErr MdCreateResponse :=
  (db, extract_markdown_response urls org_req user_org_ids)

/-! ## Extraction endpoints (app/api/v1/endpoints/extraction.py) -/

/-- The legacy-format record returned by `get_extraction_job`
(database.py:482-494). -/
structure ExtractionLegacy where
  job_id : String
  url : String
  status : String
  org_id : Int
  created_by : Option Int
deriving DecidableEq, Repr

/-- Cache fallback of `get_extraction_job` (database.py:497-505): consult
`local_job_cache`, applying the owner check only when an owner was supplied. -/
def cacheLookup (db : DB) (job_id : String) (org_id : Option Int) :
    Option ExtractionLegacy :=
  match (db.local_job_cache.filter fun c => c.job_id == job_id).head? with
  | some c =>
      match org_id with
      | some o =>
          if c.org_id == o then some ⟨c.job_id, c.url, c.status, c.org_id, c.created_by⟩
          else none
      | none => some ⟨c.job_id, c.url, c.status, c.org_id, c.created_by⟩
  | none => none

/-- `get_extraction_job(job_id, org_id)` (database.py:465-505): unified lookup
first (requiring `job_type == "website_extraction"`), cache fallback
otherwise. -/
def get_extraction_job (db : DB) (job_id : String) (org_id : Option Int) :
    Option ExtractionLegacy :=
  match get_processing_job db job_id org_id with
  | some j =>
      if j.job_type == "website_extraction" then
        some ⟨j.job_id, j.source_url.getD "", j.status, j.org_id, j.created_by⟩
      else cacheLookup db job_id org_id
  | none => cacheLookup db job_id org_id

/-- `update_extraction_job_status(job_id, status, extraction_data, org_id)`
(database.py:507-582) in the form invoked by the status endpoint, which always
passes `extraction_data=None` (extraction.py:132): patch the unified job
(`completed_items` is 1 exactly when the status is `"completed"`), skip the
result-storage branch (it requires extraction data), and refresh the local
cache entry. -/
def update_extraction_job_status (db : DB) (job_id status : String)
    (org_id : Option Int) : DB × Option ProcessingJob :=
  let completed_items : Nat := if status == "completed" then 1 else 0
  let (db1, jr) := update_processing_job db job_id (some status)
    (some completed_items) none none org_id
  ({ db1 with local_job_cache := db1.local_job_cache.map fun c =>
      if c.job_id == job_id then { c with status := status } else c }, jr)

/-- `GET /extract/{job_id}/status` (extraction.py:101-145).  The job record is
loaded by `get_extraction_job(job_id)` with NO owner argument (line 109), and
the authenticated `user_id` is never consulted afterwards — the parameter is
bound but unused, exactly as in the source.  With a provider status in hand
the record is patched and the provider status returned (lines 131-139); when
the provider response is unusable the stored status is returned unpatched
(lines 124-129). -/
def get_extraction_status_endpoint (db : DB) (_user_id : Int) (job_id : String)
    (provider_status : Option String) : DB × Except HErr (String × Int) :=
  match get_extraction_job db job_id none with
  | none => (db, .error ⟨404, "Extraction job not found"⟩)
  | some rec0 =>
      if rec0.org_id == 0 then
        (db, .error ⟨500, "Job record missing organization ID"⟩)
      else
        match provider_status with
        | none => (db, .ok (rec0.status, rec0.org_id))
        | some st =>
            let db2 := (update_extraction_job_status db job_id st (some rec0.org_id)).1
            (db2, .ok (st, rec0.org_id))

/-! ## Owner-identifier conversion (database.py:96-120)

`_convert_org_id` receives an integer or a string.  Python `hash` is
randomised per process, so it is abstracted as a parameter `hashFn`; the
source applies `abs(hash(s)) % 10**9`, modelled as `hashFn s % 10^9` with
`hashFn` valued in `Nat`. -/

/-- An owner identifier as passed to `_convert_org_id`. -/
inductive OrgIdVal where
  | int (n : Int)
  | str (s : String)
deriving DecidableEq, Repr

/-- Decimal value of a list of digit characters.  String operations in this
section are modelled over the underlying character list. -/
def digitsVal (l : List Char) : Nat :=
  l.foldl (fun a c => a * 10 + (c.toNat - 48)) 0

/-- Whether a character list is a non-empty run of decimal digits. -/
def isDigitsL (l : List Char) : Bool :=
  !l.isEmpty && l.all (·.isDigit)

/-- Whether the string is a non-empty string of decimal digits. -/
def isDigits (s : String) : Bool :=
  isDigitsL s.data

/-- Python `"-" in s`. -/
def strHasDash (s : String) : Bool :=
  s.data.any (· == '-')

/-- Model of Python `int(str)` on identifier strings: an optional `-`/`+` sign
followed by digits parses to the signed value, anything else raises
`ValueError` (here `none`).  The whitespace and underscore forms Python also
accepts play no role for the identifiers considered. -/
def pyIntParse (s : String) : Option Int :=
  match s.data with
  | [] => none
  | c :: rest =>
      if c == '-' then
        if isDigitsL rest then some (-(digitsVal rest : Int)) else none
      else if c == '+' then
        if isDigitsL rest then some ((digitsVal rest : Nat) : Int) else none
      else if isDigitsL (c :: rest) then some ((digitsVal (c :: rest) : Nat) : Int)
      else none

/-- `_convert_org_id(org_id)` (database.py:96-120): integers pass through;
strings longer than 10 characters containing a dash are hashed into
`[0, 10^9)`; otherwise `int()` is attempted and its value returned, with the
same hash fallback when parsing fails. -/
def convert_org_id (hashFn : String → Nat) : OrgIdVal → Int
  | .int n => n
  | .str s =>
      if decide (10 < s.data.length) && strHasDash s then
        ((hashFn s % 10 ^ 9 : Nat) : Int)
      else
        match pyIntParse s with
        | some n => n
        | none => ((hashFn s % 10 ^ 9 : Nat) : Int)

/-- Python truthiness of the optional owner argument. -/
def orgIdTruthy : Option OrgIdVal → Bool
  | none => false
  | some (.int n) => n != 0
  | some (.str s) => !s.isEmpty

/-- `get_processing_job` with the general owner argument, applying
`_convert_org_id` inside the filter exactly as database.py:196-199 does: the
owner-scoped read compares the stored owner only against the converted
value. -/
def get_processing_job_general (hashFn : String → Nat) (db : DB) (job_id : String)
    (org_id : Option OrgIdVal) : Option ProcessingJob :=
  (db.processing_jobs.filter fun j =>
      j.job_id == job_id
        && (if orgIdTruthy org_id then
              match org_id with
              | some o => j.org_id == convert_org_id hashFn o
              | none => true
            else true)).head?

/-! ## Derived observations and concrete fixtures -/

/-- Number of the job's work items whose status is terminal (not pending):
the quantity the count invariant compares `completed_items` against. -/
def countNonPending (db : DB) (job_id : String) : Nat :=
  (db.markdown_content.filter fun r => r.job_id == job_id && r.status != "pending").length

/-- Status of the stored work item for `(job_id, url)`. -/
def rowStatusOf (db : DB) (job_id url : String) : Option String :=
  ((db.markdown_content.filter fun r => r.job_id == job_id && r.url == url).head?).map
    (·.status)

/-- One recorded `MarkResult` call (arguments to `update_url_markdown_content`). -/
structure MarkCall where
  job_id : String
  url : String
  markdown_text : String
  status : String
  metadata : Option RowMeta := none
  links : Option (List String) := none
  html : Option String := none
  screenshot : Option String := none
  org_id : Option Int := none
deriving DecidableEq, Repr

/-- Apply a sequence of `MarkResult` calls to the store. -/
def apply_mark_calls (db : DB) : List MarkCall → DB
  | [] => db
  | c :: rest =>
      apply_mark_calls
        (update_url_markdown_content db c.job_id c.url c.markdown_text c.status
          c.metadata c.links c.html c.screenshot c.org_id).1 rest

/-- A two-url markdown job mid-flight, exactly as `create_markdown_extraction_job`
plus the line-34 status write would leave it. -/
def jobProcessing : ProcessingJob :=
  { job_id := "job1", job_type := "markdown_extraction", org_id := 7
    status := "processing", total_items := 2, completed_items := 0
    metadata := { urls := ["a.com", "b.com"], total_urls := some 2 } }

def rowA : MarkdownContentRow :=
  { job_id := "job1", url := "a.com", status := "pending", org_id := some 7 }

def rowB : MarkdownContentRow :=
  { job_id := "job1", url := "b.com", status := "pending", org_id := some 7 }

def dbProcessing : DB :=
  { processing_jobs := [jobProcessing], markdown_content := [rowA, rowB] }

/-- A provider batch item that succeeded. -/
def itemOkA : BatchItem :=
  { url := "a.com", status := "completed", markdown := "hello world" }

/-- A provider batch item that failed. -/
def itemFailB : BatchItem :=
  { url := "b.com", status := "failed", error := some "boom" }

/-- First `MarkResult` application of the C3 scenario: mark `a.com` completed
with one link. -/
def dbMark1 : DB :=
  (update_url_markdown_content dbProcessing "job1" "a.com" "hello" "completed"
    none (some ["l1"]) none none (some 7)).1

/-- The same call repeated with the identical outcome. -/
def dbMark2 : DB :=
  (update_url_markdown_content dbMark1 "job1" "a.com" "hello" "completed"
    none (some ["l1"]) none none (some 7)).1

/-- A further write against the now-terminal row, with a different outcome. -/
def dbMark3 : DB :=
  (update_url_markdown_content dbMark2 "job1" "a.com" "" "failed"
    none none none none (some 7)).1

/-- A one-url markdown job for the count-invariant scenario. -/
def jobFour : ProcessingJob :=
  { job_id := "job4", job_type := "markdown_extraction", org_id := 7
    status := "processing", total_items := 1, completed_items := 0
    metadata := { urls := ["a.com"], total_urls := some 1 } }

def rowFour : MarkdownContentRow :=
  { job_id := "job4", url := "a.com", status := "pending", org_id := some 7 }

def dbFour : DB :=
  { processing_jobs := [jobFour], markdown_content := [rowFour] }

/-- The count-invariant state after one item is marked completed. -/
def dbFourMarked : DB :=
  (update_url_markdown_content dbFour "job4" "a.com" "md" "completed"
    none none none none (some 7)).1

/-- A job carrying the status `completed_with_errors`. -/
def jobCwe : ProcessingJob :=
  { job_id := "jobC", job_type := "markdown_extraction", org_id := 7
    status := "completed_with_errors", total_items := 2, completed_items := 2
    metadata := { urls := ["a.com", "b.com"], total_urls := some 2 } }

def dbCwe : DB := { processing_jobs := [jobCwe] }

/-- A provider (incorrectly) reporting fresh completed results. -/
def provReports : Provider := ⟨.ok "completed", .ok [itemOkA]⟩

/-- A quiescent provider. -/
def provAny : Provider := ⟨.ok "pending", .ok []⟩

/-- A terminally completed markdown job. -/
def jobDone : ProcessingJob :=
  { job_id := "jobD", job_type := "markdown_extraction", org_id := 7
    status := "completed", total_items := 1, completed_items := 1
    metadata := { urls := ["a.com"], total_urls := some 1 } }

def dbDone : DB := { processing_jobs := [jobDone] }

/-- A website-extraction job owned by organization 1. -/
def jobExt : ProcessingJob :=
  { job_id := "jobE", job_type := "website_extraction", org_id := 1
    status := "processing", total_items := 1, completed_items := 0
    source_url := some "https://acme.example" }

def dbExt : DB := { processing_jobs := [jobExt] }

/-- The database after `POST /getmd` would have created the job `job-8` (one
url, organization 7, creator 1) through `create_markdown_extraction_job`. -/
def db8a : DB := (create_markdown_extraction_job {} "job-8" ["a.com"] 7 (some 1)).1

/-- ... and after the background `start_batch_scrape` ran with a successful
provider submission: the job is `processing` and, as in the source, no
`hyperbrowser_job_id` metadata key exists. -/
def db8 : DB := (start_batch_scrape db8a "job-8" 7 (.ok "hb-batch-1")).1

/-! ## Helper lemmas -/

theorem bindsOk_status_errkw :
    bindsOk sig_update_markdown_extraction_status 3 ["error_message"] = false := by
  decide

theorem bindsOk_urlcontent_badkw :
    bindsOk sig_update_url_markdown_content 0 badUrlContentKwargs = false := by
  decide

theorem bindsOk_create_badkw :
    bindsOk sig_create_markdown_extraction_job 0
      ["hyperbrowser_job_id", "urls", "org_id", "user_id"] = false := by
  decide

theorem callUpdateStatusWithErrorKw_eq (db : DB) (j st : String) (o : Option Int) :
    callUpdateStatusWithErrorKw db j st o = .typeError db := by
  simp [callUpdateStatusWithErrorKw, bindsOk_status_errkw]

theorem callUpdateUrlContentBadKw_eq (db : DB) (j u mt st : String)
    (m : Option RowMeta) (ls : Option (List String)) (h sc : Option String)
    (o : Option Int) :
    callUpdateUrlContentBadKw db j u mt st m ls h sc o = .typeError (db, none) := by
  simp [callUpdateUrlContentBadKw, bindsOk_urlcontent_badkw]

theorem process_item_eq (db : DB) (j : String) (o : Int) (it : BatchItem) :
    process_item db j o it = (db, false) := by
  unfold process_item
  split <;> simp [callUpdateUrlContentBadKw_eq]

theorem process_fold_eq (j : String) (o : Int) :
    ∀ (data : List BatchItem) (db : DB) (n : Nat),
      data.foldl (process_step j o) (db, n) = (db, n) := by
  intro data
  induction data with
  | nil => intro db n; rfl
  | cons it rest ih =>
      intro db n
      simp [List.foldl_cons, process_step, process_item_eq, ih]

theorem process_batch_results_eq (db : DB) (j : String) (o : Int)
    (data : List BatchItem) :
    process_batch_results db j o data = ⟨db, 0, "failed", true⟩ := by
  unfold process_batch_results
  split
  · simp [callUpdateStatusWithErrorKw_eq]
  · simp [process_fold_eq, callUpdateStatusWithErrorKw_eq, final_status_calc]

theorem update_url_processing_jobs (db : DB) (a b c d : String) (m : Option RowMeta)
    (ls : Option (List String)) (h sc : Option String) (o : Option Int) :
    ((update_url_markdown_content db a b c d m ls h sc o).1).processing_jobs
      = db.processing_jobs := rfl

theorem update_url_content_eq (db : DB) (a b c d : String) (m : Option RowMeta)
    (ls : Option (List String)) (h sc : Option String) (o : Option Int) :
    ((update_url_markdown_content db a b c d m ls h sc o).1).markdown_content
      = db.markdown_content.map (contentUpdateStep a b c d m h sc o) := rfl

theorem update_url_links_eq (db : DB) (a b c d : String) (m : Option RowMeta)
    (ls : Option (List String)) (h sc : Option String) (o : Option Int) :
    ((update_url_markdown_content db a b c d m ls h sc o).1).extracted_links
      = db.extracted_links
        ++ linkRecords a b ls o
            ((db.markdown_content.filter (contentRowMatches a b o)).map
              (applyUrlUpdate c d m h sc)) := rfl

theorem contentRowMatches_applyUrlUpdate (j u : String) (o : Option Int)
    (mt st : String) (m : Option RowMeta) (h sc : Option String)
    (r : MarkdownContentRow) :
    contentRowMatches j u o (applyUrlUpdate mt st m h sc r)
      = contentRowMatches j u o r := rfl

theorem applyUrlUpdate_idem (mt st : String) (m : Option RowMeta)
    (h sc : Option String) (r : MarkdownContentRow) :
    applyUrlUpdate mt st m h sc (applyUrlUpdate mt st m h sc r)
      = applyUrlUpdate mt st m h sc r := by
  unfold applyUrlUpdate
  cases m <;> by_cases hh : struthy h <;> by_cases hs : struthy sc <;> simp [hh, hs]

theorem contentUpdateStep_idem (j u mt st : String) (m : Option RowMeta)
    (h sc : Option String) (o : Option Int) (r : MarkdownContentRow) :
    contentUpdateStep j u mt st m h sc o (contentUpdateStep j u mt st m h sc o r)
      = contentUpdateStep j u mt st m h sc o r := by
  unfold contentUpdateStep
  by_cases hm : contentRowMatches j u o r = true
  · rw [if_pos hm, if_pos (by rw [contentRowMatches_applyUrlUpdate]; exact hm),
      applyUrlUpdate_idem]
  · rw [if_neg hm, if_neg hm]

theorem map_idem {α : Type} (f : α → α) (hf : ∀ a, f (f a) = f a) :
    ∀ l : List α, (l.map f).map f = l.map f := by
  intro l
  induction l with
  | nil => rfl
  | cons a t ih => simp only [List.map_cons, List.cons.injEq]; exact ⟨hf a, ih⟩

theorem linkRecords_some_length (j u : String) (ls : List String) (o : Option Int)
    (rows : List MarkdownContentRow) :
    (linkRecords j u (some ls) o rows).length = (ls.filter fun l => l != "").length := by
  unfold linkRecords
  by_cases h : ls.isEmpty
  · have : ls = [] := by simpa using h
    simp [h, this]
  · simp [h]

theorem apply_mark_calls_processing (calls : List MarkCall) :
    ∀ db : DB, (apply_mark_calls db calls).processing_jobs = db.processing_jobs := by
  induction calls with
  | nil => intro db; rfl
  | cons c rest ih =>
      intro db
      show (apply_mark_calls _ rest).processing_jobs = db.processing_jobs
      rw [ih, update_url_processing_jobs]

theorem get_processing_job_congr (db db' : DB)
    (h : db.processing_jobs = db'.processing_jobs) (j : String) (o : Option Int) :
    get_processing_job db j o = get_processing_job db' j o := by
  unfold get_processing_job; rw [h]

theorem head_filter_spec {α : Type} (p : α → Bool) :
    ∀ (l : List α) (a : α), (l.filter p).head? = some a → a ∈ l ∧ p a = true := by
  intro l
  induction l with
  | nil => intro a h; simp [List.filter] at h
  | cons x t ih =>
      intro a h
      rw [List.filter_cons] at h
      by_cases hx : p x = true
      · rw [if_pos hx] at h
        simp only [List.head?_cons, Option.some.injEq] at h
        subst h
        exact ⟨List.mem_cons_self x t, hx⟩
      · rw [if_neg hx] at h
        obtain ⟨hm, hp⟩ := ih a h
        exact ⟨List.mem_cons_of_mem x hm, hp⟩

theorem get_processing_job_some_spec (db : DB) (jid : String) (o : Int)
    (jr : ProcessingJob) (ho : o ≠ 0)
    (h : get_processing_job db jid (some o) = some jr) :
    jr ∈ db.processing_jobs ∧ jr.job_id = jid ∧ jr.org_id = o := by
  obtain ⟨hm, hp⟩ := head_filter_spec _ _ _ h
  have hot : otruthy (some o) = true := by
    simp [otruthy]; exact ho
  rw [hot] at hp
  simp only [Bool.and_eq_true, beq_iff_eq, if_true] at hp
  obtain ⟨h1, h2⟩ := hp
  have h2' : jr.org_id = o := by
    have := h2
    simp only [Option.some.injEq] at this
    exact this
  exact ⟨hm, h1, h2'⟩

theorem no_dash_of_digits :
    ∀ l : List Char, l.all (·.isDigit) = true → l.any (· == '-') = false := by
  intro l
  induction l with
  | nil => intro _; rfl
  | cons c t ih =>
      intro h
      rw [List.all_cons, Bool.and_eq_true] at h
      rw [List.any_cons, ih h.2, Bool.or_false]
      by_cases hc : c = '-'
      · subst hc; simp at h
      · simp [hc]

theorem beq_dash_false_of_digit (c : Char) (h : c.isDigit = true) :
    ((c == '-') = false) ∧ ((c == '+') = false) := by
  constructor
  · by_cases hc : c = '-'
    · subst hc; simp at h
    · simp [hc]
  · by_cases hc : c = '+'
    · subst hc; simp at h
    · simp [hc]

/-! ## Claim theorems -/

/-- C1 (counterexample).  The claim says that for a job all of whose items are
terminal, reconciliation sets `completed_with_errors` when at least one item
succeeded and at least one failed.  On the concrete mixed batch
`[itemOkA, itemFailB]` the final status computed by `process_batch_results`
is `"failed"`, not `"completed_with_errors"`, the store is left untouched, and
the job keeps its prior status `"processing"`. -/
theorem C1_counterexample :
    (process_batch_results dbProcessing "job1" 7 [itemOkA, itemFailB]).final_status
        = "failed"
    ∧ (process_batch_results dbProcessing "job1" 7 [itemOkA, itemFailB]).final_status
        ≠ "completed_with_errors"
    ∧ (process_batch_results dbProcessing "job1" 7 [itemOkA, itemFailB]).db
        = dbProcessing
    ∧ ((get_processing_job dbProcessing "job1" none).map fun j => j.status)
        = some "processing" := by
  have h := process_batch_results_eq dbProcessing "job1" 7 [itemOkA, itemFailB]
  exact ⟨by rw [h], by rw [h]; decide, by rw [h], rfl⟩

/-- C1 (amended).  The status aggregation rule of the code
(markdown_extraction.py:298) maps the success counter to `"completed"` when it
is positive and to `"failed"` otherwise; `"completed_with_errors"` is never
produced.  Moreover, because every per-item save raises `TypeError`, the
success counter is always 0, the computed status is always `"failed"`, and
`process_batch_results` persists nothing (the final write also raises). -/
theorem C1_amended :
    (∀ s, final_status_calc s = if 0 < s then "completed" else "failed")
    ∧ (∀ s, final_status_calc s ≠ "completed_with_errors")
    ∧ (∀ (db : DB) (j : String) (o : Int) (data : List BatchItem),
        process_batch_results db j o data = ⟨db, 0, "failed", true⟩) := by
  refine ⟨fun s => rfl, fun s => ?_, process_batch_results_eq⟩
  unfold final_status_calc
  split <;> decide

/-- C1 (witness for the amended statement): application at a concrete counter. -/
theorem C1_amended_witness : final_status_calc 0 ≠ "completed_with_errors" :=
  C1_amended.2.1 0

/-- C2 (counterexample).  The claim says a reconciliation attempt whose
provider poll raises a transient error tells its caller the job is still
processing.  On the concrete state `dbProcessing` with a timed-out poll, the
attempt (modelled from where the batch id is in hand,
markdown_extraction.py:136-193) returns `"error"` — which the endpoints turn
into HTTP 500 — not `"processing"`; the store is indeed unchanged, but only
because the attempted `"failed"` write itself raises `TypeError`. -/
theorem C2_counterexample :
    (check_attempt_with_batch_id dbProcessing "job1" 7
        ⟨.exn "Read timed out", .ok []⟩).2.status = "error"
    ∧ (check_attempt_with_batch_id dbProcessing "job1" 7
        ⟨.exn "Read timed out", .ok []⟩).2.status ≠ "processing"
    ∧ (check_attempt_with_batch_id dbProcessing "job1" 7
        ⟨.exn "Read timed out", .ok []⟩).1 = dbProcessing := by
  exact ⟨rfl, by decide, rfl⟩

/-- C2 (amended).  On a transient provider-poll error the reconciliation
attempt leaves the persisted job state unchanged — but only because the
exception handler's `"failed"` write raises `TypeError` (`error_message=`
keyword) instead of landing — and the attempt reports `"error"` to its caller
(surfaced as HTTP 500), not "still processing". -/
theorem C2_amended (db : DB) (j : String) (o : Int) (m : String) (f : FetchOutcome) :
    (check_attempt_with_batch_id db j o ⟨.exn m, f⟩).1 = db
    ∧ (check_attempt_with_batch_id db j o ⟨.exn m, f⟩).2.status = "error" := by
  unfold check_attempt_with_batch_id check_inner
  simp [callUpdateStatusWithErrorKw_eq]

/-- C3 (counterexample).  The claim says a second `MarkResult` call with the
same terminal outcome is a no-op because the write applies only while the item
is pending.  Concretely: the first call stores one link row, the identical
second call stores it again (2 link rows — the states differ), and a later
write against the already-terminal row still applies (its status flips from
`"completed"` to `"failed"`), so there is no only-if-pending guard. -/
theorem C3_counterexample :
    dbMark1.extracted_links.length = 1
    ∧ dbMark2.extracted_links.length = 2
    ∧ dbMark2 ≠ dbMark1
    ∧ rowStatusOf dbMark2 "job1" "a.com" = some "completed"
    ∧ rowStatusOf dbMark3 "job1" "a.com" = some "failed" := by
  exact ⟨rfl, rfl, by decide, rfl, rfl⟩

/-- C3 (amended).  The item write of `update_url_markdown_content` is
unconditional (no pending guard), but repeating a call with the same arguments
rewrites the same values, so the content table is unchanged by the second
call; the link rows are re-inserted on every call (the stored state grows by
the batch of non-empty links each time); and the job's completion counter in
`processing_jobs` is never touched by this function at all — the incremented
counter is written to the legacy `markdownextractionjobs` table. -/
theorem C3_amended (db : DB) (j u mt st : String) (m : Option RowMeta)
    (ls : List String) (h sc : Option String) (o : Option Int) :
    ((update_url_markdown_content
        ((update_url_markdown_content db j u mt st m (some ls) h sc o).1)
        j u mt st m (some ls) h sc o).1).markdown_content
      = ((update_url_markdown_content db j u mt st m (some ls) h sc o).1).markdown_content
    ∧ ((update_url_markdown_content db j u mt st m (some ls) h sc o).1).processing_jobs
      = db.processing_jobs
    ∧ ((update_url_markdown_content
        ((update_url_markdown_content db j u mt st m (some ls) h sc o).1)
        j u mt st m (some ls) h sc o).1).processing_jobs
      = db.processing_jobs
    ∧ ((update_url_markdown_content
        ((update_url_markdown_content db j u mt st m (some ls) h sc o).1)
        j u mt st m (some ls) h sc o).1).extracted_links.length
      = ((update_url_markdown_content db j u mt st m (some ls) h sc o).1).extracted_links.length
        + (ls.filter fun l => l != "").length := by
  refine ⟨?_, rfl, rfl, ?_⟩
  · rw [update_url_content_eq, update_url_content_eq]
    exact map_idem _ (contentUpdateStep_idem j u mt st m h sc o) _
  · rw [update_url_links_eq]
    simp [linkRecords_some_length]

/-- C4 (counterexample).  The claim says `completed_items` always equals the
count of non-pending work items and is recomputed from the work-item store
after fan-out.  After marking the single item of `job4` completed, the store
holds 1 non-pending item while the processing-job record still reports
`completed_items = 0`. -/
theorem C4_counterexample :
    countNonPending dbFourMarked "job4" = 1
    ∧ ((get_processing_job dbFourMarked "job4" none).map fun j => j.completed_items)
        = some 0
    ∧ (1 : Nat) ≠ 0 := by
  exact ⟨rfl, rfl, by decide⟩

/-- C4 (amended).  No sequence of `MarkResult` fan-out writes ever changes the
`processing_jobs` table: the completion counter those writes increment is
directed at the legacy `markdownextractionjobs` table, so the job record's
`completed_items` (the value the status endpoint reports) keeps its prior
value and in general differs from the count of non-pending work items. -/
theorem C4_amended (db : DB) (calls : List MarkCall) (j : String) (o : Option Int) :
    (apply_mark_calls db calls).processing_jobs = db.processing_jobs
    ∧ get_processing_job (apply_mark_calls db calls) j o = get_processing_job db j o
    ∧ ((get_processing_job (apply_mark_calls db calls) j o).map fun jr => jr.completed_items)
      = ((get_processing_job db j o).map fun jr => jr.completed_items) := by
  have hp := apply_mark_calls_processing calls db
  have hg := get_processing_job_congr _ _ hp j o
  exact ⟨hp, hg, by rw [hg]⟩

/-- C5 (counterexample).  The claim says every job in one of the three terminal
statuses is returned immediately and unchanged by `Reconcile`.  The guard at
markdown_extraction.py:123 checks only `"completed"` and `"failed"`: a job in
`completed_with_errors` falls through, the reconciler attempts two status
writes, and the call reports `"error"` — not the job's own status. -/
theorem C5_counterexample :
    (check_and_process_batch_job dbCwe "jobC" 7 provReports).status = "error"
    ∧ (check_and_process_batch_job dbCwe "jobC" 7 provReports).status
        ≠ "completed_with_errors"
    ∧ (check_and_process_batch_job dbCwe "jobC" 7 provReports).write_attempts = 2 := by
  exact ⟨rfl, by decide, rfl⟩

/-- C5 (amended).  Only `"completed"` and `"failed"` are treated as terminal:
for a job in either of those statuses every `check_and_process_batch_job` call
returns immediately with that status, without consulting the provider,
attempting no write and leaving the store unchanged — regardless of what the
provider would report. -/
theorem C5_amended (db : DB) (jid : String) (org : Int) (p : Provider)
    (job : LegacyMdJobDict)
    (hj : get_markdown_extraction_job db jid (some org) = some job)
    (ht : (job.status == "completed" || job.status == "failed") = true) :
    check_and_process_batch_job db jid org p = ⟨db, job.status, none, false, 0⟩ := by
  simp only [check_and_process_batch_job, hj]
  rw [if_pos ht]

/-- C5 (witness): the amended statement applied to a concrete completed job. -/
theorem C5_amended_witness :
    check_and_process_batch_job dbDone "jobD" 7 provAny
      = ⟨dbDone, "completed", none, false, 0⟩ := by
  have h := C5_amended dbDone "jobD" 7 provAny (toLegacyMdJobDict jobDone)
    (by decide) (by decide)
  exact h

/-- C6 (counterexample).  The claim says a non-owner's `GetStatus` is
indistinguishable from querying a missing job.  `jobE` is owned by
organization 1; the extraction status endpoint, queried by an unrelated caller
(user 999), returns the job's status (`"processing"`, organization 1) — a
non-NotFound outcome plainly distinguishable from the 404 a missing id
yields, leaking the job's existence, status and owner. -/
theorem C6_counterexample :
    get_extraction_status_endpoint dbExt 999 "jobE" none
      = (dbExt, .ok ("processing", 1))
    ∧ get_extraction_status_endpoint dbExt 999 "missing-id" none
      = (dbExt, .error ⟨404, "Extraction job not found"⟩) := by
  exact ⟨rfl, rfl⟩

/-- C6 (amended).  The markdown status/results job lookup is owner-scoped: a
hit always belongs to one of the caller's organizations, and when no
organization of the caller owns the job id the lookup yields `none`, exactly
as for a non-existent id.  The extraction status endpoint, by contrast, never
consults the caller's identity: its outcome is identical for every caller, so
any authenticated user can read any extraction job. -/
theorem C6_amended :
    (∀ (db : DB) (orgs : List Int) (jid : String) (j : ProcessingJob) (o : Int),
        (0 : Int) ∉ orgs →
        markdown_job_lookup db orgs jid = some (j, o) →
        o ∈ orgs ∧ j.job_id = jid ∧ j.org_id = o)
    ∧ (∀ (db : DB) (orgs : List Int) (jid : String),
        (0 : Int) ∉ orgs →
        (∀ j ∈ db.processing_jobs, j.job_id = jid → j.org_id ∉ orgs) →
        markdown_job_lookup db orgs jid = none)
    ∧ (∀ (db : DB) (u v : Int) (jid : String) (ps : Option String),
        get_extraction_status_endpoint db u jid ps
          = get_extraction_status_endpoint db v jid ps) := by
  refine ⟨?_, ?_, fun db u v jid ps => rfl⟩
  · intro db orgs
    induction orgs with
    | nil => intro jid j o _ hl; simp [markdown_job_lookup] at hl
    | cons a rest ih =>
        intro jid j o hz hl
        rw [markdown_job_lookup] at hl
        rcases hg : get_processing_job db jid (some a) with _ | jr
        · rw [hg] at hl
          have hz' : (0 : Int) ∉ rest := fun hm => hz (List.mem_cons_of_mem a hm)
          obtain ⟨h1, h2, h3⟩ := ih jid j o hz' hl
          exact ⟨List.mem_cons_of_mem a h1, h2, h3⟩
        · rw [hg] at hl
          simp only [Option.some.injEq, Prod.mk.injEq] at hl
          obtain ⟨hj, ho⟩ := hl
          have ha : a ≠ 0 := fun e => hz (by rw [← e]; exact List.mem_cons_self a rest)
          obtain ⟨_, h2, h3⟩ := get_processing_job_some_spec db jid a jr ha hg
          subst hj
          subst ho
          exact ⟨List.mem_cons_self a rest, h2, h3⟩
  · intro db orgs
    induction orgs with
    | nil => intro jid _ _; rfl
    | cons a rest ih =>
        intro jid hz hnone
        rw [markdown_job_lookup]
        rcases hg : get_processing_job db jid (some a) with _ | jr
        · exact ih jid (fun hm => hz (List.mem_cons_of_mem a hm))
            (fun jj hmem hjid hmr => hnone jj hmem hjid (List.mem_cons_of_mem a hmr))
        · exfalso
          have ha : a ≠ 0 := fun e => hz (by rw [← e]; exact List.mem_cons_self a rest)
          obtain ⟨hmem, h2, h3⟩ := get_processing_job_some_spec db jid a jr ha hg
          exact hnone jr hmem h2 (h3 ▸ List.mem_cons_self a rest)

/-- C6 (witness): the amended statement applied to concrete states — a job
owned by organization 7 is invisible to a caller whose only organization is 9,
and the extraction endpoint answers two different callers identically. -/
theorem C6_amended_witness :
    markdown_job_lookup dbProcessing [9] "job1" = none
    ∧ get_extraction_status_endpoint dbExt 999 "jobE" none
        = get_extraction_status_endpoint dbExt 1 "jobE" none := by
  exact ⟨C6_amended.2.1 dbProcessing [9] "job1" (by decide) (by decide),
    C6_amended.2.2 dbExt 999 1 "jobE" none⟩

/-- C7 (confirmed).  `POST /getmd` rejects an empty url list and a batch of
more than 1000 urls synchronously with HTTP 400, before any record is
created; indeed no path of the endpoint mutates the store at all (and the
job-creation call could not even bind its keyword arguments). -/
theorem C7_validation (db : DB) (urls : List String) (org_req : Option Int)
    (uo : List Int) :
    (urls = [] →
      extract_markdown_endpoint db urls org_req uo
        = (db, .error ⟨400, "No URLs provided"⟩))
    ∧ (1000 < urls.length →
      extract_markdown_endpoint db urls org_req uo
        = (db, .error ⟨400, "Maximum 1000 URLs allowed per batch"⟩))
    ∧ (extract_markdown_endpoint db urls org_req uo).1 = db
    ∧ bindsOk sig_create_markdown_extraction_job 0
        ["hyperbrowser_job_id", "urls", "org_id", "user_id"] = false := by
  refine ⟨?_, ?_, rfl, bindsOk_create_badkw⟩
  · intro h; subst h; rfl
  · intro h
    have hne : urls.isEmpty = false := by
      cases urls with
      | nil => simp at h
      | cons a t => rfl
    unfold extract_markdown_endpoint extract_markdown_response
    rw [hne]
    simp only [Bool.false_eq_true, if_false]
    rw [if_pos h]

/-- C7 (witness): the validation theorem applied to the empty batch and to a
batch of 1001 urls. -/
theorem C7_validation_witness :
    extract_markdown_endpoint ({} : DB) [] none []
      = (({} : DB), .error ⟨400, "No URLs provided"⟩)
    ∧ extract_markdown_endpoint ({} : DB) (List.replicate 1001 "u") none []
      = (({} : DB), .error ⟨400, "Maximum 1000 URLs allowed per batch"⟩) := by
  exact ⟨(C7_validation _ _ _ _).1 rfl,
    (C7_validation _ _ _ _).2.1 (by rw [List.length_replicate]; norm_num)⟩

/-- C8 (code bug).  The claim says `GetResults` on a processing job returns
the counts with an empty result list.  On the state produced by the system's
own job creation and submission (`db8`: job `job-8`, status `"processing"`),
`GET /getmd/job-8` instead fails with HTTP 500 "Job missing hyperbrowser job
ID": the endpoint reads the metadata key `hyperbrowser_job_id`, which no code
path ever writes (submission would store `hyperbrowser_batch_id`). -/
theorem C8_code_bug :
    ((get_processing_job db8 "job-8" (some 7)).map fun j => j.status)
      = some "processing"
    ∧ (get_markdown_results_endpoint db8 [7] "job-8" provAny).2
      = .error ⟨500, "Job missing hyperbrowser job ID"⟩ := by
  exact ⟨rfl, rfl⟩

/-- C9 (confirmed).  Every failure-recording path of the markdown pipeline
calls `update_markdown_extraction_status` with an `error_message=` keyword its
signature does not accept: the binding fails, the call raises `TypeError`
leaving the store unchanged, and consequently the submit-failure handler
persists nothing beyond the earlier `"processing"` write, `process_batch_results`
persists nothing at all, and the failed-poll branch of the status check leaves
the store untouched. -/
theorem C9_confirmed :
    bindsOk sig_update_markdown_extraction_status 3 ["error_message"] = false
    ∧ (∀ (db : DB) (j st : String) (o : Option Int),
        callUpdateStatusWithErrorKw db j st o = .typeError db)
    ∧ (∀ (db : DB) (j : String) (o : Int) (e : String),
        start_batch_scrape db j o (.exn e)
          = ((update_markdown_extraction_status db j "processing" (some o)).1, none))
    ∧ (∀ (db : DB) (j : String) (o : Int) (data : List BatchItem),
        process_batch_results db j o data = ⟨db, 0, "failed", true⟩)
    ∧ (∀ (db : DB) (j : String) (o : Int) (f : FetchOutcome),
        (check_inner db j o ⟨.ok "failed", f⟩).1 = db) := by
  refine ⟨bindsOk_status_errkw, callUpdateStatusWithErrorKw_eq, ?_,
    process_batch_results_eq, ?_⟩
  · intro db j o e
    simp [start_batch_scrape, callUpdateStatusWithErrorKw_eq]
  · intro db j o f
    simp [check_inner, callUpdateStatusWithErrorKw_eq]

/-- C10 (counterexample).  The claim says every identifier other than integers
and digit strings is hashed into `[0, 10^9)`.  The string `"-5"` is not a
digit string, yet `_convert_org_id` returns `-5` for it (Python `int("-5")`
succeeds), which lies outside `[0, 10^9)`. -/
theorem C10_counterexample :
    isDigits "-5" = false
    ∧ convert_org_id (fun _ => 0) (.str "-5") = -5
    ∧ ¬ (0 ≤ convert_org_id (fun _ => 0) (.str "-5")) := by
  exact ⟨rfl, rfl, by decide⟩

/-- C10 (amended).  `_convert_org_id` returns integers unchanged, digit
strings (and, more generally, short sign-prefixed decimal strings accepted by
`int()`) as their integer value, and hashes every remaining identifier into
`[0, 10^9)`.  It is not injective — the distinct identifiers `"0123"` and
`"123"` share the converted value — and the owner-scoped read of
`get_processing_job` compares the stored owner only against this converted
value, so the two collide on every lookup. -/
theorem C10_amended (hashFn : String → Nat) (n : Int) (s t : String)
    (hs : isDigits s = true)
    (ht : pyIntParse t = none ∨ (10 < t.data.length ∧ strHasDash t = true)) :
    convert_org_id hashFn (.int n) = n
    ∧ convert_org_id hashFn (.str s) = (digitsVal s.data : Int)
    ∧ (0 ≤ convert_org_id hashFn (.str t)
        ∧ convert_org_id hashFn (.str t) < 10 ^ 9)
    ∧ OrgIdVal.str "0123" ≠ OrgIdVal.str "123"
    ∧ convert_org_id hashFn (.str "0123") = convert_org_id hashFn (.str "123")
    ∧ (∀ (db : DB) (jid : String),
        get_processing_job_general hashFn db jid (some (.str "0123"))
          = get_processing_job_general hashFn db jid (some (.str "123"))) := by
  have hrange : ∀ u : String,
      (0 : Int) ≤ ((hashFn u % 10 ^ 9 : Nat) : Int)
        ∧ ((hashFn u % 10 ^ 9 : Nat) : Int) < 10 ^ 9 := by
    intro u
    constructor
    · exact Int.ofNat_nonneg _
    · have : hashFn u % 10 ^ 9 < 10 ^ 9 := Nat.mod_lt _ (by norm_num)
      exact_mod_cast this
  refine ⟨rfl, ?_, ?_, by decide, rfl, fun db jid => rfl⟩
  · unfold isDigits at hs
    have hsc := hs
    rw [isDigitsL, Bool.and_eq_true] at hsc
    have hdash : strHasDash s = false := by
      rw [strHasDash]
      exact no_dash_of_digits s.data hsc.2
    have hguard : (decide (10 < s.data.length) && strHasDash s) = false := by
      rw [hdash, Bool.and_false]
    have hparse : pyIntParse s = some ((digitsVal s.data : Nat) : Int) := by
      rcases hsd : s.data with _ | ⟨c, rest⟩
      · rw [hsd] at hsc; simp at hsc
      · have hc : c.isDigit = true := by
          have h2 := hsc.2
          rw [hsd, List.all_cons, Bool.and_eq_true] at h2
          exact h2.1
        obtain ⟨hcm, hcp⟩ := beq_dash_false_of_digit c hc
        have hall : isDigitsL (c :: rest) = true := by
          rw [← hsd]; exact hs
        simp only [pyIntParse, hsd, hcm, hcp, Bool.false_eq_true, if_false, hall,
          if_true]
    simp only [convert_org_id, hguard, Bool.false_eq_true, if_false, hparse]
  · rcases ht with hp | ⟨hl, hd⟩
    · by_cases hg : (decide (10 < t.data.length) && strHasDash t) = true
      · simp only [convert_org_id, hg, if_true]
        exact hrange t
      · have hg' : (decide (10 < t.data.length) && strHasDash t) = false := by
          simpa using hg
        simp only [convert_org_id, hg', Bool.false_eq_true, if_false, hp]
        exact hrange t
    · have hg : (decide (10 < t.data.length) && strHasDash t) = true := by
        rw [hd, Bool.and_true, decide_eq_true hl]
      simp only [convert_org_id, hg, if_true]
      exact hrange t

/-- C10 (witness): the amended statement applied at a fixed hash function, a
negative integer, the digit string `"042"` and the unparseable string
`"abc"`. -/
theorem C10_amended_witness :
    convert_org_id (fun _ => 5) (.int (-7)) = -7
    ∧ convert_org_id (fun _ => 5) (.str "042") = 42 := by
  have h := C10_amended (fun _ => 5) (-7) "042" "abc" (by decide) (Or.inl (by decide))
  exact ⟨h.1, by rw [h.2.1]; decide⟩

end PBiz
